import Mathlib

/-!
Shallow embedding of the core of percona-agent (Go) for verification:
log relay buffering (log/relay.go), MySQL-restart detection
(mrms/monitor/instance.go), QAN config validation and manager lifecycle
(qan/manager.go), perfschema result preparation (qan/perfschema/worker.go)
and the agent supervisor loop (agent/agent.go).

Machine floats in the source are modelled as exact rationals; external
effects (SQL, websocket sends, disk I/O) are passed in as explicit
success/failure parameters or oracles.
-/

namespace PerconaAgent

/-! ## Log relay (log/relay.go)

Log entries are represented by their message strings; an entry is what
`Relay.buffer` stores and `Relay.resend` flushes.  The Go relay keeps two
fixed-size arrays with a fill count; since `buffer` only ever fills slots
`0..size-1` in order and `resend` (with all sends succeeding, i.e. while
connected) clears every slot, the buffers are represented as lists whose
lengths are the fill counts. -/

namespace Log

/-- State of the relay's two-tier buffer: `firstBuf` (filled once, never
overwritten), `secondBuf` (discarded wholesale and refilled once full) and
the `lost` tally, as in `Relay` of log/relay.go. -/
structure RelayBuf where
  firstBuf : List String
  secondBuf : List String
  lost : Nat
deriving Repr, DecidableEq

/-- The relay's buffer state at creation: both buffers empty, nothing lost. -/
def RelayBuf.init : RelayBuf := ⟨[], [], 0⟩

/-- `Relay.buffer` of log/relay.go, for buffer capacity `bufSize`
(the source constant `BUFFER_SIZE` is 10): fill `firstBuf` first; then fill
`secondBuf`; once both are full, add `secondBufSize` to `lost`, discard
`secondBuf` and restart it at position 0 with the new entry. -/
def buffer (bufSize : Nat) (r : RelayBuf) (e : String) : RelayBuf :=
  if r.firstBuf.length < bufSize then
    { r with firstBuf := r.firstBuf ++ [e] }
  else if r.secondBuf.length < bufSize then
    { r with secondBuf := r.secondBuf ++ [e] }
  else
    { r with lost := r.lost + r.secondBuf.length, secondBuf := [e] }

/-- Buffer a whole sequence of entries received while disconnected. -/
def bufferAll (bufSize : Nat) (r : RelayBuf) (es : List String) : RelayBuf :=
  es.foldl (buffer bufSize) r

/-- The synthetic lost-count entry `fmt.Sprintf("Lost %d log entries", r.lost)`
built in `Relay.resend`. -/
def lostEntry (n : Nat) : String := "Lost " ++ toString n ++ " log entries"

/-- `Relay.resend` of log/relay.go with every send succeeding (the relay is
connected again): flush `firstBuf` in slot order, then — if `lost > 0` — the
synthetic lost-count entry, then `secondBuf` in slot order; sent slots are
cleared and `lost` is reset.  Returns the sent sequence and the new state. -/
def resend (r : RelayBuf) : List String × RelayBuf :=
  (r.firstBuf ++ (if r.lost > 0 then [lostEntry r.lost] else []) ++ r.secondBuf,
   ⟨[], [], 0⟩)

/-- The sequence the relay sends on reconnect after buffering `es` while
disconnected, starting from the empty buffer state. -/
def sentOnReconnect (bufSize : Nat) (es : List String) : List String :=
  (resend (bufferAll bufSize RelayBuf.init es)).1

end Log

/-! ## MySQL-restart monitor (mrms/monitor/instance.go)

Times are Unix seconds (`time.Time.Unix()` in the source); uptimes are
`int64`.  Both are modelled as `Int`.  The source calls `time.Now()` twice a
few instructions apart; the model takes a single `now`. -/

namespace Mrms

/-- The per-instance detector state of `mysqlInstance`:
`(lastUptime, lastUptimeCheck)`. -/
structure InstanceState where
  lastUptime : Int
  lastUptimeCheck : Int
deriving Repr, DecidableEq

/-- `mysqlInstance.CheckIfMysqlRestarted` of mrms/monitor/instance.go:
computes `elapsedTime = now − lastUptimeCheck` and
`expectedUptime = lastUptime + elapsedTime`, unconditionally re-baselines
the state to `(currentUptime, now)`, and reports a restart exactly when
`currentUptime < expectedUptime`.  Returns (restarted, new state). -/
def checkIfMysqlRestarted (s : InstanceState) (now currentUptime : Int) :
    Bool × InstanceState :=
  let elapsedTime := now - s.lastUptimeCheck
  let expectedUptime := s.lastUptime + elapsedTime
  (decide (currentUptime < expectedUptime), ⟨currentUptime, now⟩)

end Mrms

/-! ## QAN config validation and manager lifecycle (qan/manager.go) -/

namespace Qan

/-- The QAN `Config` fields that `ValidateConfig` and the manager inspect.
`Start`/`Stop` are lists of variable mutations (content irrelevant here,
only emptiness is tested); `Interval` and `WorkerRunTime` are unsigned in
the source, `MaxWorkers` is a signed int. -/
structure Config where
  collectFrom : String
  start : List String
  stop : List String
  maxWorkers : Int
  interval : Nat
  workerRunTime : Nat
  maxSlowLogSize : Int
  removeOldSlowLogs : Bool
  exampleQueries : Bool
deriving Repr, DecidableEq

/-- `ValidateConfig` of qan/manager.go.  The Go function mutates the config
(defaulting an unset `CollectFrom` to `"slowlog"`) and returns an error or
nil; the model returns the updated config on success and the error message
otherwise, preserving the source's check order. -/
def validateConfig (c : Config) : Except String Config :=
  let c := if c.collectFrom = "" then { c with collectFrom := "slowlog" } else c
  if c.collectFrom ≠ "slowlog" ∧ c.collectFrom ≠ "perfschema" then
    .error ("Invalid CollectFrom: '" ++ c.collectFrom ++
      "'.  Expected 'perfschema' or 'slowlog'.")
  else if c.start.isEmpty then
    .error "qan.Config.Start array is empty"
  else if c.stop.isEmpty then
    .error "qan.Config.Stop array is empty"
  else if c.maxWorkers < 1 then
    .error "MaxWorkers must be > 0"
  else if c.maxWorkers > 4 then
    .error "MaxWorkers must be < 4"
  else if c.interval = 0 then
    .error "Interval must be > 0"
  else if c.interval > 3600 then
    .error "Interval must be <= 3600 (1 hour)"
  else if c.workerRunTime = 0 then
    .error "WorkerRuntime must be > 0"
  else if c.workerRunTime > 1200 then
    .error "WorkerRuntime must be <= 1200 (20 minutes)"
  else
    .ok c

/-- The events the `Manager.run` loop of qan/manager.go selects on, as far
as the worker count is concerned: a new interval from the iterator, a
worker delivering itself on `workerDoneChan`, and a restart notification
(which only reconfigures MySQL and touches no worker). -/
inductive RunEvent
  | interval
  | workerDone
  | restartNotice
deriving Repr, DecidableEq

/-- One iteration of `Manager.run` acting on the size of the worker map
`m.workers`: a new interval is dropped (with a warning, no state change)
when `runningWorkers >= config.MaxWorkers`, otherwise one worker is
registered and spawned; a done worker is removed; a restart notification
leaves the worker map alone. -/
def runStep (maxWorkers : Int) (workers : Nat) : RunEvent → Nat
  | .interval => if (workers : Int) ≥ maxWorkers then workers else workers + 1
  | .workerDone => workers - 1
  | .restartNotice => workers

/-- The worker count after the run loop processes a sequence of events,
starting from an empty worker map. -/
def runWorkers (maxWorkers : Int) (events : List RunEvent) : Nat :=
  events.foldl (runStep maxWorkers) 0

/-- Modelled from the spec: `pct.ServiceIsRunningError` (package pct is part
of this repository but not under src/).  Per the spec's scenario, handling
`StartService` on a running qan manager replies with an `Error` containing
`"qan is running"`; the message is modelled as `<service> is running`. -/
def serviceIsRunningError (service : String) : String :=
  service ++ " is running"

/-- The manager state the lifecycle claims are about: the `running` flag and
the installed config, both guarded by `m.mux` in the source. -/
structure ManagerState where
  running : Bool
  config : Option Config
deriving Repr, DecidableEq

/-- Everything external that `Manager.Start`/`start` can fail on, passed in
as oracles: the config read from disk (`none` = file does not exist) and
whether the `start` sequence (instance lookup, MRM subscribe, MySQL
configure, iterator) succeeds. -/
structure StartEnv where
  diskConfig : Option Config
  startOk : Bool
deriving Repr, DecidableEq

/-- `Manager.Start` of qan/manager.go: if already running, return
`ServiceIsRunningError` with the state unchanged; otherwise read the config
from disk, validate it and run the `start` sequence — every one of those
failures is only logged (`Start` returns nil and the manager stays
stopped); on success, install the config and set `running`.  Returns the
new state and the returned error, if any. -/
def managerStart (m : ManagerState) (env : StartEnv) :
    ManagerState × Option String :=
  if m.running then
    (m, some (serviceIsRunningError "qan"))
  else
    match env.diskConfig with
    | none => (m, none)
    | some c =>
      match validateConfig c with
      | .error _ => (m, none)
      | .ok c =>
        if env.startOk then
          ({ running := true, config := some c }, none)
        else
          (m, none)

/-- `Manager.Stop` of qan/manager.go: a no-op returning nil when not
running; otherwise tear down (iterator, clock, MRM, run goroutine, MySQL
`Stop` mutations — any error is only logged) and clear `running`.  The
Boolean records whether the teardown (`m.stop()`) was performed. -/
def managerStop (m : ManagerState) : ManagerState × Option String × Bool :=
  if !m.running then
    (m, none, false)
  else
    ({ m with running := false }, none, true)

/-- `Manager.Handle` for `"StartService"`: reply `ServiceIsRunningError`
when running (state untouched); otherwise unmarshal the command data
(`cfg`, with `unmarshalOk` as the decode oracle), run `m.start` (which
validates), and on success install the config, set `running` and persist
(persist failure is reported but `running`/`config` are already set).
Returns the new state and the reply error, if any. -/
def handleStartService (m : ManagerState) (cfg : Config)
    (unmarshalOk startOk writeOk : Bool) : ManagerState × Option String :=
  if m.running then
    (m, some (serviceIsRunningError "qan"))
  else if !unmarshalOk then
    (m, some "json unmarshal error")
  else
    match validateConfig cfg with
    | .error e => (m, some e)
    | .ok c =>
      if !startOk then
        (m, some "start error")
      else if !writeOk then
        ({ running := true, config := some c }, some "write config error")
      else
        ({ running := true, config := some c }, none)

/-- `Manager.Handle` for `"StopService"`: reply with no error and do
nothing when not running; otherwise tear down (collecting any teardown and
config-removal errors), clear `running`.  The Boolean records whether the
teardown (`m.stop()`) was performed. -/
def handleStopService (m : ManagerState) (removeOk : Bool) :
    ManagerState × Option String × Bool :=
  if !m.running then
    (m, none, false)
  else
    ({ m with running := false },
     if removeOk then none else some "remove config error", true)

end Qan

/-! ## Perfschema worker (qan/perfschema/worker.go)

`PrepareResult` turns rows of
`performance_schema.events_statements_summary_by_digest` into a QAN result.
The Go float64 arithmetic (`float64(x) * math.Pow10(-12)`) is modelled
exactly over `ℚ` as `x / 10^12`. -/

namespace Perfschema

/-- The projection of `DigestRow` (qan/perfschema/worker.go) that
`PrepareResult` reads.  Wait and lock columns are picoseconds (`uint64`),
counters are unsigned; all are modelled as `Nat`. -/
structure DigestRow where
  digest : String
  digestText : String
  countStar : Nat
  sumTimerWait : Nat
  minTimerWait : Nat
  avgTimerWait : Nat
  maxTimerWait : Nat
  sumLockTime : Nat
  sumRowsAffected : Nat
  sumRowsSent : Nat
  sumRowsExamined : Nat
  sumCreatedTmpDiskTables : Nat
  sumCreatedTmpTables : Nat
  sumSelectFullJoin : Nat
  sumSelectScan : Nat
  sumSortMergePasses : Nat
deriving Repr, DecidableEq

/-- `event.TimeStats` as filled by `PrepareResult`: a count and exact
second values. -/
structure TimeStats where
  cnt : Nat
  sum : ℚ
  min : ℚ
  max : ℚ
  avg : ℚ
deriving Repr, DecidableEq

/-- `event.NumberStats` as filled by `PrepareResult`. -/
structure NumberStats where
  cnt : Nat
  sum : Nat
deriving Repr, DecidableEq

/-- `event.BoolStats` as filled by `PrepareResult` (`True` is the number of
true occurrences). -/
structure BoolStats where
  cnt : Nat
  trueCnt : Nat
deriving Repr, DecidableEq

/-- The metrics `PrepareResult` stores per class.  The Go code keys them in
maps (`TimeMetrics["Query_time"]`, ...); the model names each key as a
field. -/
structure Metrics where
  queryTime : TimeStats
  lockTime : TimeStats
  rowsAffected : NumberStats
  rowsSent : NumberStats
  rowsExamined : NumberStats
  mergePasses : NumberStats
  tmpTableOnDisk : BoolStats
  tmpTable : BoolStats
  fullJoin : BoolStats
  fullScan : BoolStats
deriving Repr, DecidableEq

/-- `event.QueryClass` as built by `PrepareResult`: class id, fingerprint
(the digest text), total query count and the metrics. -/
structure QueryClass where
  id : String
  fingerprint : String
  totalQueries : Nat
  metrics : Metrics
deriving Repr, DecidableEq

/-- The global-class counters that `PrepareResult` sets at the end. -/
structure GlobalClass where
  totalQueries : Nat
  uniqueQueries : Nat
deriving Repr, DecidableEq

/-- `qan.Result` as far as `PrepareResult` fills it. -/
structure Result where
  global : GlobalClass
  Class : List QueryClass
deriving Repr, DecidableEq

/-- Picosecond value to seconds: `float64(x) * math.Pow10(-12)`, exactly. -/
def picoToSec (x : Nat) : ℚ := (x : ℚ) / (10 ^ 12 : ℚ)

/-- The class id `strings.ToUpper(row.Digest[16:32])`: uppercase of digest
character positions 16..31 (0-based, inclusive-exclusive).  Digests are
ASCII hex, so Go's byte slicing coincides with character slicing. -/
def classIdOf (digest : String) : String :=
  ⟨((digest.data.drop 16).take 16).map Char.toUpper⟩

/-- The `event.QueryClass` that `PrepareResult` builds for one digest row. -/
def rowClass (row : DigestRow) : QueryClass :=
  let cnt := row.countStar
  { id := classIdOf row.digest
    fingerprint := row.digestText
    totalQueries := row.countStar
    metrics :=
      { queryTime :=
          { cnt := cnt
            sum := picoToSec row.sumTimerWait
            min := picoToSec row.minTimerWait
            max := picoToSec row.maxTimerWait
            avg := picoToSec row.avgTimerWait }
        lockTime :=
          { cnt := cnt, sum := picoToSec row.sumLockTime, min := 0, max := 0, avg := 0 }
        rowsAffected := { cnt := cnt, sum := row.sumRowsAffected }
        rowsSent := { cnt := cnt, sum := row.sumRowsSent }
        rowsExamined := { cnt := cnt, sum := row.sumRowsExamined }
        mergePasses := { cnt := cnt, sum := row.sumSortMergePasses }
        tmpTableOnDisk := { cnt := cnt, trueCnt := row.sumCreatedTmpDiskTables }
        tmpTable := { cnt := cnt, trueCnt := row.sumCreatedTmpTables }
        fullJoin := { cnt := cnt, trueCnt := row.sumSelectFullJoin }
        fullScan := { cnt := cnt, trueCnt := row.sumSelectScan } } }

/-- `Worker.PrepareResult` of qan/perfschema/worker.go: one class per row
(each row is already a unique, pre-aggregated class), and the global counts
`TotalQueries = UniqueQueries = len(classes)`. -/
def prepareResult (rows : List DigestRow) : Result :=
  let classes := rows.map rowClass
  { global := { totalQueries := classes.length, uniqueQueries := classes.length }
    Class := classes }

end Perfschema

/-! ## Agent supervisor (agent/agent.go)

The `Agent.Run` select loop, restricted to the crash/connect events the
claims are about. -/

namespace Agent

/-- `MAX_ERRORS` of agent/agent.go. -/
def MAX_ERRORS : Nat := 3

/-- The crash counters `cmdHandlerErrors` and `statusHandlerErrors` kept by
`Agent.Run`. -/
structure SupState where
  cmdHandlerErrors : Nat
  statusHandlerErrors : Nat
deriving Repr, DecidableEq

/-- The `Agent.Run` select branches relevant to the crash budget: a crash
notification on a handler's `CrashChan`, and a transport connect-state
transition on `client.ConnectChan()`. -/
inductive SupEvent
  | cmdCrash
  | statusCrash
  | connected (up : Bool)
deriving Repr, DecidableEq

/-- What the supervisor does in response: respawn the crashed handler, log
FATAL without respawning, or (for connect transitions) reset / spawn a
reconnect goroutine. -/
inductive SupAction
  | respawnCmd
  | respawnStatus
  | fatalCmd
  | fatalStatus
  | resetCounters
  | reconnect
deriving Repr, DecidableEq

/-- One iteration of the `Agent.Run` loop on a supervisor event: a crash
increments that handler's counter, then respawns iff the incremented
counter is `< MAX_ERRORS`, else logs FATAL (and the loop continues — `Run`
does not return); `connected true` resets both counters to 0;
`connected false` spawns a reconnect.  Returns the new counters and the
action taken. -/
def supStep (s : SupState) : SupEvent → SupState × SupAction
  | .cmdCrash =>
    let n := s.cmdHandlerErrors + 1
    ({ s with cmdHandlerErrors := n },
     if n < MAX_ERRORS then .respawnCmd else .fatalCmd)
  | .statusCrash =>
    let n := s.statusHandlerErrors + 1
    ({ s with statusHandlerErrors := n },
     if n < MAX_ERRORS then .respawnStatus else .fatalStatus)
  | .connected true => (⟨0, 0⟩, .resetCounters)
  | .connected false => (s, .reconnect)

/-- The supervisor state after a sequence of events, starting from the
fresh counters `Run` initializes to 0. -/
def supRun (events : List SupEvent) : SupState :=
  events.foldl (fun s e => (supStep s e).1) ⟨0, 0⟩

/-- The actions the supervisor emits along a sequence of events. -/
def supActions (events : List SupEvent) : List SupAction :=
  (events.foldl (fun (acc : SupState × List SupAction) e =>
    let (s, a) := supStep acc.1 e
    (s, acc.2 ++ [a])) (⟨0, 0⟩, [])).2

/-- The agent `Config` fields that `handleSetConfig` reads and writes. -/
structure Config where
  apiHostname : String
  apiKey : String
  agentUuid : String
deriving Repr, DecidableEq

/-- The external outcomes `handleSetConfig` depends on: whether the API
reconnect attempt for a changed key / hostname succeeds, and whether
persisting the merged config succeeds. -/
structure SetConfigEnv where
  keyConnectOk : Bool
  hostConnectOk : Bool
  writeOk : Bool
deriving Repr, DecidableEq

/-- `Agent.handleSetConfig` of agent/agent.go: start from a copy of the
current config; if the incoming `ApiKey` is non-empty and differs, try an
API reconnect — on failure append one error and keep the old key, on
success adopt the new key; symmetrically for `ApiHostname`; then persist
the merged config (a write failure appends one more error) and install the
merged config as `agent.config` unconditionally.  Returns the installed
config and the error list. -/
def handleSetConfig (current incoming : Config) (env : SetConfigEnv) :
    Config × List String :=
  let finalConfig := current
  let errs : List String := []
  let (finalConfig, errs) :=
    if incoming.apiKey ≠ "" ∧ incoming.apiKey ≠ finalConfig.apiKey then
      if env.keyConnectOk then
        ({ finalConfig with apiKey := incoming.apiKey }, errs)
      else
        (finalConfig, errs ++ ["agent.api.Connect:ApiKey:"])
    else (finalConfig, errs)
  let (finalConfig, errs) :=
    if incoming.apiHostname ≠ "" ∧ incoming.apiHostname ≠ finalConfig.apiHostname then
      if env.hostConnectOk then
        ({ finalConfig with apiHostname := incoming.apiHostname }, errs)
      else
        (finalConfig, errs ++ ["agent.api.Connect:ApiHostname:"])
    else (finalConfig, errs)
  let errs := if env.writeOk then errs else errs ++ ["agent.WriteConfig:"]
  (finalConfig, errs)

end Agent

namespace Qan

/-- A valid QAN config with `CollectFrom` unset, used to instantiate the
lifecycle theorems on concrete inputs. -/
def sampleConfig : Config :=
  { collectFrom := ""
    start := ["slow_query_log=ON"]
    stop := ["slow_query_log=OFF"]
    maxWorkers := 2
    interval := 60
    workerRunTime := 55
    maxSlowLogSize := 1073741824
    removeOldSlowLogs := true
    exampleQueries := false }

end Qan

namespace Perfschema

/-- The spec's single perfschema digest row (scenario 4): count 3, total
wait 3·10¹² ps, min 10¹² ps, max 2·10¹² ps, avg 10¹² ps. -/
def sampleRow : DigestRow :=
  { digest := "0123456789abcdef0123456789ABCDEF01234567"
    digestText := "SELECT 1"
    countStar := 3
    sumTimerWait := 3000000000000
    minTimerWait := 1000000000000
    avgTimerWait := 1000000000000
    maxTimerWait := 2000000000000
    sumLockTime := 0
    sumRowsAffected := 0
    sumRowsSent := 0
    sumRowsExamined := 0
    sumCreatedTmpDiskTables := 0
    sumCreatedTmpTables := 0
    sumSelectFullJoin := 0
    sumSelectScan := 0
    sumSortMergePasses := 0 }

end Perfschema

/-! ## Helper lemmas -/

namespace Qan

set_option maxHeartbeats 2000000 in
/-- Characterization of `validateConfig` success, mirroring the source's
nine checks. -/
theorem validateConfig_isOk_iff (c : Config) :
    (validateConfig c).isOk = true ↔
      ((c.collectFrom = "" ∨ c.collectFrom = "slowlog" ∨ c.collectFrom = "perfschema") ∧
       c.start ≠ [] ∧ c.stop ≠ [] ∧
       1 ≤ c.maxWorkers ∧ c.maxWorkers ≤ 4 ∧
       1 ≤ c.interval ∧ c.interval ≤ 3600 ∧
       1 ≤ c.workerRunTime ∧ c.workerRunTime ≤ 1200) := by
  by_cases h0 : c.collectFrom = "" <;>
    simp only [validateConfig, h0, if_true, if_false, reduceIte] <;>
    split_ifs <;> simp_all [Except.isOk, Except.toBool, Nat.one_le_iff_ne_zero] <;> try omega
  all_goals tauto

set_option maxHeartbeats 2000000 in
/-- A successful `validateConfig` changes the config only by defaulting an
unset `CollectFrom` to `"slowlog"`. -/
theorem validateConfig_ok_eq (c c' : Config) (h : validateConfig c = .ok c') :
    c' = { c with collectFrom := if c.collectFrom = "" then "slowlog" else c.collectFrom } := by
  by_cases h0 : c.collectFrom = "" <;>
    simp only [validateConfig, h0, if_true, if_false, reduceIte] at h <;>
    split_ifs at h <;> simp_all

/-- A validated config has at least one worker. -/
theorem validateConfig_ok_maxWorkers (c c' : Config) (h : validateConfig c = .ok c') :
    1 ≤ c'.maxWorkers := by
  have hiff := (validateConfig_isOk_iff c).mp (by rw [h]; rfl)
  have heq := validateConfig_ok_eq c c' h
  subst heq
  exact hiff.2.2.2.1

/-- The run loop never grows the worker count past `maxWorkers`. -/
theorem foldl_runStep_le (mw : Int) (evs : List RunEvent) :
    ∀ w : Nat, (w : Int) ≤ mw → ((evs.foldl (runStep mw) w : Nat) : Int) ≤ mw := by
  induction evs with
  | nil => intro w hw; simpa using hw
  | cons e evs ih =>
    intro w hw
    cases e with
    | interval =>
      simp only [List.foldl_cons, runStep]
      split_ifs with h
      · exact ih w hw
      · exact ih (w + 1) (by push_cast; omega)
    | workerDone =>
      exact ih (w - 1) (by omega)
    | restartNotice =>
      exact ih w hw

end Qan

/-! ## Claim theorems -/

/-- C1 (counterexample): with `BUFFER_SIZE = 2` and the seven entries
A..G buffered while disconnected, the relay does NOT resend
A, B, "Lost 3 log entries", F, G — it resends A, B, "Lost 4 log entries",
G, because a full `secondBuf` is discarded wholesale (its two entries
added to `lost`) rather than slid entry-by-entry. -/
theorem C1_log_relay_resend_counterexample :
    Log.sentOnReconnect 2 ["A", "B", "C", "D", "E", "F", "G"] ≠
      ["A", "B", "Lost 3 log entries", "F", "G"] ∧
    Log.sentOnReconnect 2 ["A", "B", "C", "D", "E", "F", "G"] =
      ["A", "B", "Lost 4 log entries", "G"] := by
  constructor
  · decide
  · rfl

/-- C1 (amended): with `BUFFER_SIZE = 2`, after buffering A,B,C,D,E,F,G
while disconnected, on reconnect the relay sends exactly the first buffer
A, B in order, then one synthetic "Lost 4 log entries" entry (C,D were
discarded when E arrived and E,F when G arrived), then the surviving
second-buffer entry G. -/
theorem C1_log_relay_resend :
    Log.sentOnReconnect 2 ["A", "B", "C", "D", "E", "F", "G"] =
      ["A", "B", Log.lostEntry 4, "G"] ∧
    Log.lostEntry 4 = "Lost 4 log entries" := by
  constructor <;> rfl

/-- C2: `CheckIfMysqlRestarted` returns true exactly when
`currentUptime < lastUptime + (now − lastUptimeCheck)`; in particular
uptime 3600→10 is a restart, 60→120 with 30s elapsed is not, and 60→120
with 120s elapsed is. -/
theorem C2_mysql_restart_detection :
    (∀ (s : Mrms.InstanceState) (now currentUptime : ℤ),
      ((Mrms.checkIfMysqlRestarted s now currentUptime).1 = true ↔
        currentUptime < s.lastUptime + (now - s.lastUptimeCheck))) ∧
    (Mrms.checkIfMysqlRestarted ⟨3600, 0⟩ 60 10).1 = true ∧
    (Mrms.checkIfMysqlRestarted ⟨60, 0⟩ 30 120).1 = false ∧
    (Mrms.checkIfMysqlRestarted ⟨60, 0⟩ 120 120).1 = true := by
  refine ⟨fun s now cur => ?_, by decide, by decide, by decide⟩
  simp [Mrms.checkIfMysqlRestarted]

/-- C3: `ValidateConfig` succeeds exactly when `CollectFrom` is
"slowlog", "perfschema" or unset (unset being rewritten to "slowlog"),
`Start` and `Stop` are non-empty, `MaxWorkers ∈ [1,4]`,
`Interval ∈ [1,3600]` and `WorkerRunTime ∈ [1,1200]`. -/
theorem C3_qan_config_validation (c : Qan.Config) :
    ((Qan.validateConfig c).isOk = true ↔
      ((c.collectFrom = "" ∨ c.collectFrom = "slowlog" ∨ c.collectFrom = "perfschema") ∧
       c.start ≠ [] ∧ c.stop ≠ [] ∧
       1 ≤ c.maxWorkers ∧ c.maxWorkers ≤ 4 ∧
       1 ≤ c.interval ∧ c.interval ≤ 3600 ∧
       1 ≤ c.workerRunTime ∧ c.workerRunTime ≤ 1200)) ∧
    (∀ c', Qan.validateConfig c = .ok c' →
      c' = { c with collectFrom :=
               if c.collectFrom = "" then "slowlog" else c.collectFrom }) :=
  ⟨Qan.validateConfig_isOk_iff c, fun c' h => Qan.validateConfig_ok_eq c c' h⟩

/-- C3 witness: the sample config with `CollectFrom` unset validates and
comes back with `CollectFrom = "slowlog"`. -/
theorem C3_qan_config_validation_witness :
    { Qan.sampleConfig with collectFrom := "slowlog" } =
      ({ Qan.sampleConfig with collectFrom :=
          if Qan.sampleConfig.collectFrom = "" then "slowlog"
          else Qan.sampleConfig.collectFrom } : Qan.Config) :=
  (C3_qan_config_validation Qan.sampleConfig).2
    { Qan.sampleConfig with collectFrom := "slowlog" } (by rfl)

/-- C4: `PrepareResult` on the single sample digest row yields one class
with Id "0123456789ABCDEF" (uppercase of digest chars 16..31), Query_time
metrics {Cnt 3, Sum 3, Min 1, Max 2, Avg 1} in seconds (picoseconds
× 10⁻¹²), and global TotalQueries = UniqueQueries = 1. -/
theorem C4_perfschema_prepare_result :
    (Perfschema.prepareResult [Perfschema.sampleRow]).Class.length = 1 ∧
    ((Perfschema.prepareResult [Perfschema.sampleRow]).Class.head?).map
      Perfschema.QueryClass.id = some "0123456789ABCDEF" ∧
    ((Perfschema.prepareResult [Perfschema.sampleRow]).Class.head?).map
      (fun c => c.metrics.queryTime) =
      some { cnt := 3, sum := 3, min := 1, max := 2, avg := 1 } ∧
    (Perfschema.prepareResult [Perfschema.sampleRow]).global.totalQueries = 1 ∧
    (Perfschema.prepareResult [Perfschema.sampleRow]).global.uniqueQueries = 1 := by
  refine ⟨rfl, by decide, ?_, rfl, rfl⟩
  simp only [Perfschema.prepareResult, Perfschema.rowClass, List.map, List.head?,
    Option.map, Perfschema.sampleRow]
  norm_num [Perfschema.picoToSec]

/-- C5: for every config passing validation, along any event sequence the
run loop keeps the number of registered workers ≤ `MaxWorkers`, and an
interval arriving while the count is already ≥ `MaxWorkers` is dropped:
the state is left unchanged (no worker spawned, nothing queued). -/
theorem C5_qan_worker_admission (c c' : Qan.Config)
    (h : Qan.validateConfig c = .ok c') (events : List Qan.RunEvent) :
    ((Qan.runWorkers c'.maxWorkers events : ℤ) ≤ c'.maxWorkers) ∧
    (∀ w : ℕ, (w : ℤ) ≥ c'.maxWorkers →
      Qan.runStep c'.maxWorkers w .interval = w) := by
  have h1 : (1 : ℤ) ≤ c'.maxWorkers := Qan.validateConfig_ok_maxWorkers c c' h
  refine ⟨Qan.foldl_runStep_le c'.maxWorkers events 0 (by omega), fun w hw => ?_⟩
  simp [Qan.runStep, hw]

/-- C5 witness: the sample config (MaxWorkers 2) with three consecutive
intervals stays within the bound. -/
theorem C5_qan_worker_admission_witness :
    ((Qan.runWorkers
        ({ Qan.sampleConfig with collectFrom := "slowlog" } : Qan.Config).maxWorkers
        [.interval, .interval, .interval] : ℤ) ≤
      ({ Qan.sampleConfig with collectFrom := "slowlog" } : Qan.Config).maxWorkers) ∧
    (∀ w : ℕ,
      (w : ℤ) ≥ ({ Qan.sampleConfig with collectFrom := "slowlog" } : Qan.Config).maxWorkers →
      Qan.runStep ({ Qan.sampleConfig with collectFrom := "slowlog" } : Qan.Config).maxWorkers
        w .interval = w) :=
  C5_qan_worker_admission Qan.sampleConfig _ (by rfl) [.interval, .interval, .interval]

/-- C6: on a running manager, a second `Start` returns
`ServiceIsRunningError` and a second `StartService` command replies with
an error containing "qan is running", in both cases leaving `running` and
the config untouched. -/
theorem C6_double_start_rejected (m : Qan.ManagerState) (env : Qan.StartEnv)
    (cfg : Qan.Config) (unmarshalOk startOk writeOk : Bool)
    (h : m.running = true) :
    Qan.managerStart m env = (m, some (Qan.serviceIsRunningError "qan")) ∧
    Qan.handleStartService m cfg unmarshalOk startOk writeOk =
      (m, some (Qan.serviceIsRunningError "qan")) ∧
    Qan.serviceIsRunningError "qan" = "qan is running" := by
  refine ⟨?_, ?_, rfl⟩ <;> simp [Qan.managerStart, Qan.handleStartService, h]

/-- C6 witness: concrete running manager. -/
theorem C6_double_start_rejected_witness :
    Qan.managerStart ⟨true, some Qan.sampleConfig⟩ ⟨none, true⟩ =
      (⟨true, some Qan.sampleConfig⟩, some (Qan.serviceIsRunningError "qan")) ∧
    Qan.handleStartService ⟨true, some Qan.sampleConfig⟩ Qan.sampleConfig true true true =
      (⟨true, some Qan.sampleConfig⟩, some (Qan.serviceIsRunningError "qan")) ∧
    Qan.serviceIsRunningError "qan" = "qan is running" :=
  C6_double_start_rejected ⟨true, some Qan.sampleConfig⟩ ⟨none, true⟩
    Qan.sampleConfig true true true rfl

/-- C7 (counterexample): the supervisor does NOT respawn a crashed
cmdHandler on every one of the first MAX_ERRORS = 3 crashes — the third
crash already hits the FATAL branch (`cmdHandlerErrors` is incremented to
3, which is not `< MAX_ERRORS`), so only the first two crashes respawn. -/
theorem C7_handler_crash_budget_counterexample :
    Agent.supActions [.cmdCrash, .cmdCrash, .cmdCrash] ≠
      [.respawnCmd, .respawnCmd, .respawnCmd] ∧
    Agent.supActions [.cmdCrash, .cmdCrash, .cmdCrash] =
      [.respawnCmd, .respawnCmd, .fatalCmd] := by
  constructor
  · decide
  · rfl

/-- C7 (amended): each crash increments that handler's counter and the
handler is respawned iff the incremented counter is strictly below
MAX_ERRORS = 3 — so the first two crashes since the last successful
connect are respawned and from the third crash on the supervisor logs
FATAL and never respawns that handler again (the counter stays at or
above the bound), while the run loop keeps processing events; a
successful connect resets both counters to 0. -/
theorem C7_handler_crash_budget (s : Agent.SupState) :
    (Agent.supStep s .cmdCrash =
      ({ s with cmdHandlerErrors := s.cmdHandlerErrors + 1 },
       if s.cmdHandlerErrors + 1 < Agent.MAX_ERRORS then .respawnCmd else .fatalCmd)) ∧
    (Agent.supStep s .statusCrash =
      ({ s with statusHandlerErrors := s.statusHandlerErrors + 1 },
       if s.statusHandlerErrors + 1 < Agent.MAX_ERRORS then .respawnStatus
       else .fatalStatus)) ∧
    (Agent.MAX_ERRORS ≤ s.cmdHandlerErrors + 1 →
      (Agent.supStep s .cmdCrash).2 = .fatalCmd ∧
      Agent.MAX_ERRORS ≤ (Agent.supStep s .cmdCrash).1.cmdHandlerErrors + 1) ∧
    (Agent.supStep s (.connected true) = (⟨0, 0⟩, .resetCounters)) := by
  refine ⟨rfl, rfl, fun h => ?_, rfl⟩
  constructor
  · simp only [Agent.supStep]
    rw [if_neg (by omega)]
  · simp only [Agent.supStep]
    omega

/-- C7 witness: with two crashes already counted, the next crash is
FATAL, not a respawn. -/
theorem C7_handler_crash_budget_witness :
    (Agent.supStep ⟨2, 0⟩ .cmdCrash =
      (⟨3, 0⟩, if 2 + 1 < Agent.MAX_ERRORS then .respawnCmd else .fatalCmd)) ∧
    Agent.MAX_ERRORS ≤ 2 + 1 ∧
    (Agent.supStep ⟨2, 0⟩ .cmdCrash).2 = .fatalCmd :=
  ⟨(C7_handler_crash_budget ⟨2, 0⟩).1, by decide,
   ((C7_handler_crash_budget ⟨2, 0⟩).2.2.1 (by decide)).1⟩

/-- C8: `handleSetConfig` keeps a field whose incoming value is empty or
unchanged; a field is adopted exactly when its value differs, is
non-empty and the API reconnect for it succeeds; every failed attempted
mutation (and a failed persist) contributes exactly one error; and the
merged config is installed regardless of failures (its fields depend only
on the corresponding attempt's outcome, never on the other errors). -/
theorem C8_set_config_merge (cur inc : Agent.Config) (env : Agent.SetConfigEnv) :
    ((inc.apiKey = "" ∨ inc.apiKey = cur.apiKey) →
      (Agent.handleSetConfig cur inc env).1.apiKey = cur.apiKey) ∧
    ((inc.apiHostname = "" ∨ inc.apiHostname = cur.apiHostname) →
      (Agent.handleSetConfig cur inc env).1.apiHostname = cur.apiHostname) ∧
    (Agent.handleSetConfig cur inc env).1.apiKey =
      (if inc.apiKey ≠ "" ∧ inc.apiKey ≠ cur.apiKey ∧ env.keyConnectOk
       then inc.apiKey else cur.apiKey) ∧
    (Agent.handleSetConfig cur inc env).1.apiHostname =
      (if inc.apiHostname ≠ "" ∧ inc.apiHostname ≠ cur.apiHostname ∧ env.hostConnectOk
       then inc.apiHostname else cur.apiHostname) ∧
    (Agent.handleSetConfig cur inc env).1.agentUuid = cur.agentUuid ∧
    (Agent.handleSetConfig cur inc env).2.length =
      ((if inc.apiKey ≠ "" ∧ inc.apiKey ≠ cur.apiKey ∧ ¬env.keyConnectOk
        then 1 else 0) +
       (if inc.apiHostname ≠ "" ∧ inc.apiHostname ≠ cur.apiHostname ∧ ¬env.hostConnectOk
        then 1 else 0) +
       (if ¬env.writeOk then 1 else 0)) := by
  simp only [Agent.handleSetConfig]
  split_ifs <;> simp_all

/-- C8 witness: an incoming config with an unchanged key and empty
hostname leaves both fields alone; a failed persist yields one error. -/
theorem C8_set_config_merge_witness :
    (Agent.handleSetConfig ⟨"h0", "k0", "u0"⟩ ⟨"", "k0", ""⟩ ⟨false, false, false⟩).1.apiKey
      = "k0" ∧
    (Agent.handleSetConfig ⟨"h0", "k0", "u0"⟩ ⟨"", "k0", ""⟩
      ⟨false, false, false⟩).1.apiHostname = "h0" ∧
    (Agent.handleSetConfig ⟨"h0", "k0", "u0"⟩ ⟨"", "k0", ""⟩
      ⟨false, false, false⟩).2.length = 0 + 0 + 1 :=
  ⟨(C8_set_config_merge ⟨"h0", "k0", "u0"⟩ ⟨"", "k0", ""⟩ ⟨false, false, false⟩).1
      (Or.inr rfl),
   (C8_set_config_merge ⟨"h0", "k0", "u0"⟩ ⟨"", "k0", ""⟩ ⟨false, false, false⟩).2.1
      (Or.inl rfl),
   by decide⟩

/-- C9: stopping a stopped QAN manager is a no-op: `Stop` returns nil,
`StopService` replies without error, the state is unchanged and no
teardown is performed. -/
theorem C9_stop_idempotent (m : Qan.ManagerState) (removeOk : Bool)
    (h : m.running = false) :
    Qan.managerStop m = (m, none, false) ∧
    Qan.handleStopService m removeOk = (m, none, false) := by
  constructor <;> simp [Qan.managerStop, Qan.handleStopService, h]

/-- C9 witness: concrete stopped manager. -/
theorem C9_stop_idempotent_witness :
    Qan.managerStop ⟨false, none⟩ = (⟨false, none⟩, none, false) ∧
    Qan.handleStopService ⟨false, none⟩ false = (⟨false, none⟩, none, false) :=
  C9_stop_idempotent ⟨false, none⟩ false rfl

/-- C10: every `CheckIfMysqlRestarted` call re-baselines the state to the
fresh `(currentUptime, now)` whether or not a restart was detected, so a
second check whose observed uptime is consistent with uninterrupted
running since the first reports no restart — one restart is reported at
most once. -/
theorem C10_mrm_rebaseline :
    (∀ (s : Mrms.InstanceState) (now currentUptime : ℤ),
      (Mrms.checkIfMysqlRestarted s now currentUptime).2 =
        ⟨currentUptime, now⟩) ∧
    (∀ (s : Mrms.InstanceState) (now cur now' cur' : ℤ),
      cur + (now' - now) ≤ cur' →
      (Mrms.checkIfMysqlRestarted
        (Mrms.checkIfMysqlRestarted s now cur).2 now' cur').1 = false) := by
  refine ⟨fun s now cur => rfl, fun s now cur now' cur' h => ?_⟩
  simp only [Mrms.checkIfMysqlRestarted, decide_eq_false_iff_not, not_lt]
  omega

/-- C10 witness: after detecting the 3600→10 restart, a consistent
follow-up poll (uptime 70 after 60 more seconds) reports no restart. -/
theorem C10_mrm_rebaseline_witness :
    (Mrms.checkIfMysqlRestarted ⟨60, 0⟩ 120 120).2 = ⟨120, 120⟩ ∧
    (10 : ℤ) + (120 - 60) ≤ 70 ∧
    (Mrms.checkIfMysqlRestarted
      (Mrms.checkIfMysqlRestarted ⟨3600, 0⟩ 60 10).2 120 70).1 = false :=
  ⟨C10_mrm_rebaseline.1 ⟨60, 0⟩ 120 120, by decide,
   C10_mrm_rebaseline.2 ⟨3600, 0⟩ 60 10 120 70 (by decide)⟩

end PerconaAgent
